import Mathlib

/-!
Shallow embedding of the Solana/Anchor voting program
(`src/programs/voting/src/lib.rs`) and proofs of its specification's claims.

The program has two instructions:

* `init_poll` — validates a poll configuration and allocates a `Poll` record
  at the address derived from `(authority, title)`.
* `vote` — checks the voting window and candidate index, allocates a `Voter`
  record at the address derived from `(poll, wallet)` (the Anchor `init`
  constraint rejects the allocation before the handler body runs when a
  record already exists there), and increments the chosen tally with
  `u64::checked_add`.

Machine integers are modelled as `Nat` with the `u64` bound made explicit
(`checked_add` fails exactly when the mathematical sum exceeds `2 ^ 64 - 1`).
Rust `String::len` counts UTF-8 bytes, so string length checks use
`String.utf8ByteSize`.  Fallible operations return `Except`; the Solana
runtime applies a transaction's writes all-or-nothing, so an `error` result
carries no state, and a failed operation leaves the chain state unchanged.
-/

namespace Voting

/-- Largest value a `u64` tally can hold. -/
def U64_MAX : Nat := 2 ^ 64 - 1

/-- `u64::checked_add` on the mathematical values: `none` exactly when the
sum would not fit in a `u64`. -/
def checked_add (a b : Nat) : Option Nat :=
  if a + b ≤ U64_MAX then some (a + b) else none

/-- The program's error enum (`VotingError` in `lib.rs`). -/
inductive VotingError
  | NotEnoughCandidates
  | TooManyCandidates
  | TitleTooLong
  | BadSchedule
  | TooEarly
  | Closed
  | BadCandidate
  | CandidateNameTooLong
  | EmptyCandidateName
  | Overflow
deriving DecidableEq, Repr

/-- A transaction-level failure: either a program error raised by the
handler, or a substrate failure — the `init` constraint finding an account
already allocated at the derived address, or a Rust panic (out-of-bounds
indexing) aborting the transaction. -/
inductive TxError
  | program (e : VotingError)
  | accountAlreadyInUse
  | indexPanic
deriving DecidableEq, Repr

instance {ε : Type u} {α : Type v} [DecidableEq ε] [DecidableEq α] :
    DecidableEq (Except ε α) := fun x y =>
  match x, y with
  | .error e, .error e' =>
    if h : e = e' then .isTrue (by rw [h]) else .isFalse (by simp [h])
  | .ok a, .ok a' =>
    if h : a = a' then .isTrue (by rw [h]) else .isFalse (by simp [h])
  | .error _, .ok _ => .isFalse (by simp)
  | .ok _, .error _ => .isFalse (by simp)

/-- On-chain `Poll` account.  `Pubkey`s are abstracted as `Nat`. -/
structure Poll where
  authority : Nat
  title : String
  candidates : List String
  votes : List Nat
  start_ts : Int
  end_ts : Int
  bump : Nat
deriving DecidableEq, Repr

/-- On-chain `Voter` account (the Ballot record). -/
structure Voter where
  poll : Nat
  wallet : Nat
  has_voted : Bool
  bump : Nat
deriving DecidableEq, Repr

/-- First validation error among the candidate names, scanning in order as
the `for name in candidates.iter()` loop does: empty name first, then byte
length greater than 32. -/
def nameError : List String → Option VotingError
  | [] => none
  | name :: rest =>
    if name.isEmpty then some .EmptyCandidateName
    else if ¬ (name.utf8ByteSize ≤ 32) then some .CandidateNameTooLong
    else nameError rest

/-- A candidate name passing both per-name checks of `init_poll`. -/
def validName (name : String) : Bool :=
  !name.isEmpty && name.utf8ByteSize ≤ 32

/-- The `init_poll` instruction handler.  The `require!` checks run in
source order; on success the new `Poll` record is returned.  String lengths
are UTF-8 byte counts, as Rust's `String::len` is. -/
def init_poll (authority : Nat) (title : String) (candidates : List String)
    (start_ts : Int) (end_ts : Int) (bump : Nat) : Except VotingError Poll :=
  if ¬ (2 ≤ candidates.length) then .error .NotEnoughCandidates
  else if ¬ (candidates.length ≤ 8) then .error .TooManyCandidates
  else if ¬ (title.utf8ByteSize ≤ 64) then .error .TitleTooLong
  else if ¬ (start_ts < end_ts) then .error .BadSchedule
  else match nameError candidates with
    | some e => .error e
    | none =>
      .ok { authority := authority
            title := title
            candidates := candidates
            votes := List.replicate candidates.length 0
            start_ts := start_ts
            end_ts := end_ts
            bump := bump }

/-- The ledger state relevant to one poll: the poll account's address
(`pollKey`), its contents, and the `Voter` records allocated against it. -/
structure Chain where
  pollKey : Nat
  poll : Poll
  ballots : List Voter
deriving DecidableEq, Repr

/-- Whether a `Voter` record already exists at the address derived from
`(poll, wallet)` — for a fixed poll, whether this wallet has a ballot. -/
def hasBallot (s : Chain) (w : Nat) : Bool :=
  s.ballots.any (fun b => b.wallet == w)

/-- The `vote` transaction.  Anchor first processes the `Vote` accounts
struct: the `init` constraint on `voter` fails with an allocation error when
a record already exists at the `(poll, wallet)` address.  Then the handler
body runs: window checks, index check, `Voter` fields, checked increment.
Any failure aborts the transaction with no state change (all-or-nothing
application by the runtime), which the `Except` result models. -/
def vote (s : Chain) (wallet : Nat) (candidate_idx : Nat) (now : Int)
    (voterBump : Nat) : Except TxError Chain :=
  if hasBallot s wallet then .error .accountAlreadyInUse
  else if ¬ (s.poll.start_ts ≤ now) then .error (.program .TooEarly)
  else if ¬ (now ≤ s.poll.end_ts) then .error (.program .Closed)
  else if ¬ (candidate_idx < s.poll.candidates.length) then
    .error (.program .BadCandidate)
  else if ¬ (candidate_idx < s.poll.votes.length) then .error .indexPanic
  else match checked_add (s.poll.votes.getD candidate_idx 0) 1 with
    | none => .error (.program .Overflow)
    | some v =>
      .ok { s with
            poll := { s.poll with
                      votes := s.poll.votes.set candidate_idx v }
            ballots := s.ballots ++
              [{ poll := s.pollKey
                 wallet := wallet
                 has_voted := true
                 bump := voterBump }] }

/-- One `vote` request: who votes, for which index, at what cluster time,
with which PDA bump. -/
structure Req where
  wallet : Nat
  candidate_idx : Nat
  now : Int
  bump : Nat
deriving DecidableEq, Repr

/-- Apply one `vote` request to the chain: a failed transaction leaves the
state unchanged. -/
def step (s : Chain) (r : Req) : Chain :=
  match vote s r.wallet r.candidate_idx r.now r.bump with
  | .ok s' => s'
  | .error _ => s

/-- Apply a sequence of `vote` requests in order. -/
def run : Chain → List Req → Chain
  | s, [] => s
  | s, r :: rest => run (step s r) rest

/-- The subsequence of requests whose `vote` transaction succeeds when the
sequence is applied in order. -/
def succList : Chain → List Req → List Req
  | _, [] => []
  | s, r :: rest =>
    match vote s r.wallet r.candidate_idx r.now r.bump with
    | .ok s' => r :: succList s' rest
    | .error _ => succList s rest

/-- The chain state produced by a successful `vote`: the chosen tally is one
higher and a fresh `Voter` record is appended. -/
def applyVote (s : Chain) (w i b : Nat) : Chain :=
  { s with
    poll := { s.poll with
              votes := s.poll.votes.set i (s.poll.votes.getD i 0 + 1) }
    ballots := s.ballots ++
      [{ poll := s.pollKey, wallet := w, has_voted := true, bump := b }] }

/-- A poll's configuration: every field except the live tallies. -/
def pollConfig (p : Poll) : Poll :=
  { p with votes := [] }

/-- A small concrete poll used to instantiate the theorems. -/
def demoPoll : Poll :=
  { authority := 0, title := "T", candidates := ["A", "B"], votes := [0, 0],
    start_ts := 0, end_ts := 10, bump := 0 }

/-- A chain holding `demoPoll` with no ballots yet. -/
def demoChain : Chain := ⟨1, demoPoll, []⟩

/-- `demoChain` after wallet `5` voted for candidate `0`. -/
def demoChainAfter : Chain :=
  ⟨1, { demoPoll with votes := [1, 0] },
   [{ poll := 1, wallet := 5, has_voted := true, bump := 0 }]⟩

/-- A chain where wallet `7` already holds a ballot for a poll whose window
is `[100, 200]`. -/
def dupChain : Chain :=
  ⟨1, { authority := 0, title := "T", candidates := ["A", "B"],
        votes := [0, 0], start_ts := 100, end_ts := 200, bump := 0 },
   [{ poll := 1, wallet := 7, has_voted := true, bump := 0 }]⟩

/-- A chain whose first tally sits at the `u64` maximum. -/
def maxChain : Chain :=
  ⟨1, { authority := 0, title := "T", candidates := ["A", "B"],
        votes := [U64_MAX, 0], start_ts := 0, end_ts := 10, bump := 0 },
   []⟩

theorem getD_set_self (l : List Nat) (i v : Nat) (h : i < l.length) :
    (l.set i v).getD i 0 = v := by
  induction l generalizing i with
  | nil => simp at h
  | cons a tl ih =>
    cases i with
    | zero => simp
    | succ n => simpa using ih n (by simpa using h)

theorem getD_set_ne (l : List Nat) (i j v : Nat) (h : i ≠ j) :
    (l.set i v).getD j 0 = l.getD j 0 := by
  induction l generalizing i j with
  | nil => simp
  | cons a tl ih =>
    cases i with
    | zero =>
      cases j with
      | zero => exact absurd rfl h
      | succ m => simp
    | succ n =>
      cases j with
      | zero => simp
      | succ m => simpa using ih n m (by omega)

theorem sum_set_succ (l : List Nat) (i : Nat) (h : i < l.length) :
    (l.set i (l.getD i 0 + 1)).sum = l.sum + 1 := by
  induction l generalizing i with
  | nil => simp at h
  | cons a tl ih =>
    cases i with
    | zero => simp; omega
    | succ n =>
      have h' := ih n (by simpa using h)
      simp at h' ⊢
      omega

theorem vote_ok_iff {s : Chain} {w i : Nat} {t : Int} {b : Nat} {s' : Chain} :
    vote s w i t b = .ok s' ↔
      (hasBallot s w = false ∧ s.poll.start_ts ≤ t ∧ t ≤ s.poll.end_ts ∧
       i < s.poll.candidates.length ∧ i < s.poll.votes.length ∧
       s.poll.votes.getD i 0 + 1 ≤ U64_MAX ∧ s' = applyVote s w i b) := by
  unfold vote checked_add applyVote
  split_ifs with h1 h2 h3 h4 h5 h6 <;> simp_all
  tauto

theorem vote_dup (s : Chain) (w i : Nat) (t : Int) (b : Nat)
    (h : hasBallot s w = true) :
    vote s w i t b = .error .accountAlreadyInUse := by
  unfold vote
  simp [h]

theorem vote_tooEarly (s : Chain) (w i : Nat) (t : Int) (b : Nat)
    (hdup : hasBallot s w = false) (h : t < s.poll.start_ts) :
    vote s w i t b = .error (.program .TooEarly) := by
  have h' : ¬ (s.poll.start_ts ≤ t) := by omega
  unfold vote
  simp [hdup, h']

theorem vote_closed (s : Chain) (w i : Nat) (t : Int) (b : Nat)
    (hdup : hasBallot s w = false) (hst : s.poll.start_ts ≤ t)
    (h : s.poll.end_ts < t) :
    vote s w i t b = .error (.program .Closed) := by
  have h' : ¬ (t ≤ s.poll.end_ts) := by omega
  unfold vote
  simp [hdup, hst, h']

theorem vote_badCandidate (s : Chain) (w i : Nat) (t : Int) (b : Nat)
    (hdup : hasBallot s w = false) (hst : s.poll.start_ts ≤ t)
    (hen : t ≤ s.poll.end_ts) (h : s.poll.candidates.length ≤ i) :
    vote s w i t b = .error (.program .BadCandidate) := by
  have h' : ¬ (i < s.poll.candidates.length) := by omega
  unfold vote
  simp [hdup, hst, hen, h']

theorem vote_overflow (s : Chain) (w i : Nat) (t : Int) (b : Nat)
    (hdup : hasBallot s w = false) (hst : s.poll.start_ts ≤ t)
    (hen : t ≤ s.poll.end_ts) (hidx : i < s.poll.candidates.length)
    (hlen : i < s.poll.votes.length)
    (hmax : U64_MAX ≤ s.poll.votes.getD i 0) :
    vote s w i t b = .error (.program .Overflow) := by
  unfold vote checked_add
  split_ifs with g1 g2 <;>
    first
    | rfl
    | (exfalso; omega)
    | simp_all

theorem step_eq_of_error (s : Chain) (r : Req) (e : TxError)
    (h : vote s r.wallet r.candidate_idx r.now r.bump = .error e) :
    step s r = s := by
  unfold step
  rw [h]

theorem hasBallot_applyVote (s : Chain) (w' i b w : Nat) :
    hasBallot (applyVote s w' i b) w = (hasBallot s w || (w' == w)) := by
  unfold hasBallot applyVote
  simp

theorem hasBallot_step_mono (s : Chain) (r : Req) (w : Nat)
    (h : hasBallot s w = true) : hasBallot (step s r) w = true := by
  unfold step
  cases hv : vote s r.wallet r.candidate_idx r.now r.bump with
  | error e => exact h
  | ok s' =>
    rcases (vote_ok_iff.mp hv) with ⟨_, _, _, _, _, _, rfl⟩
    rw [hasBallot_applyVote, h]
    rfl

theorem init_poll_ok_iff {a : Nat} {title : String} {cands : List String}
    {st en : Int} {bp : Nat} {p : Poll} :
    init_poll a title cands st en bp = .ok p ↔
      (2 ≤ cands.length ∧ cands.length ≤ 8 ∧ title.utf8ByteSize ≤ 64 ∧
       st < en ∧ nameError cands = none ∧
       p = { authority := a, title := title, candidates := cands,
             votes := List.replicate cands.length 0,
             start_ts := st, end_ts := en, bump := bp }) := by
  unfold init_poll
  split_ifs with h1 h2 h3 h4 <;> try simp_all
  cases hne : nameError cands <;> simp_all
  tauto

theorem run_tally (s : Chain) (rs : List Req) :
    ((run s rs).poll.votes.sum = s.poll.votes.sum + (succList s rs).length) ∧
    ∀ i, (run s rs).poll.votes.getD i 0 =
      s.poll.votes.getD i 0 +
        (succList s rs).countP (fun r => r.candidate_idx == i) := by
  induction rs generalizing s with
  | nil => simp [run, succList]
  | cons r rest ih =>
    cases hv : vote s r.wallet r.candidate_idx r.now r.bump with
    | error e =>
      simp only [run, succList, step, hv]
      exact ih s
    | ok s' =>
      rcases vote_ok_iff.mp hv with ⟨h1, h2, h3, h4, hlen, hmax, rfl⟩
      obtain ⟨ihsum, ihidx⟩ := ih (applyVote s r.wallet r.candidate_idx r.bump)
      simp only [run, succList, step, hv]
      constructor
      · rw [ihsum]
        have hs := sum_set_succ s.poll.votes r.candidate_idx hlen
        simp only [applyVote, List.length_cons]
        simp only [applyVote] at hs ⊢
        omega
      · intro i
        rw [ihidx i]
        simp only [applyVote, List.countP_cons]
        by_cases hc : r.candidate_idx = i
        · subst hc
          rw [getD_set_self _ _ _ hlen]
          simp
          omega
        · rw [getD_set_ne _ _ _ _ hc]
          have hb : (r.candidate_idx == i) = false := by simp [hc]
          simp [hb]

theorem succList_count_zero (s : Chain) (w : Nat) (rs : List Req)
    (h : hasBallot s w = true) :
    (succList s rs).countP (fun r => r.wallet == w) = 0 := by
  induction rs generalizing s with
  | nil => simp [succList]
  | cons r rest ih =>
    cases hv : vote s r.wallet r.candidate_idx r.now r.bump with
    | error e =>
      simp only [succList, hv]
      exact ih s h
    | ok s' =>
      rcases vote_ok_iff.mp hv with ⟨hb, _, _, _, _, _, rfl⟩
      have hne : r.wallet ≠ w := by
        intro hEq
        rw [hEq] at hb
        simp [h] at hb
      have hwb : (r.wallet == w) = false := by simp [hne]
      have h' : hasBallot (applyVote s r.wallet r.candidate_idx r.bump) w
          = true := by
        rw [hasBallot_applyVote, h]
        rfl
      simp only [succList, hv, List.countP_cons, hwb]
      simp [ih _ h']

theorem succList_count_le_one (s : Chain) (w : Nat) (rs : List Req)
    (h : hasBallot s w = false) :
    (succList s rs).countP (fun r => r.wallet == w) ≤ 1 := by
  induction rs generalizing s with
  | nil => simp [succList]
  | cons r rest ih =>
    cases hv : vote s r.wallet r.candidate_idx r.now r.bump with
    | error e =>
      simp only [succList, hv]
      exact ih s h
    | ok s' =>
      rcases vote_ok_iff.mp hv with ⟨hb, _, _, _, _, _, rfl⟩
      by_cases hw : r.wallet = w
      · subst hw
        have h1 : hasBallot (applyVote s r.wallet r.candidate_idx r.bump)
            r.wallet = true := by
          rw [hasBallot_applyVote]
          simp
        have h0 := succList_count_zero _ _ rest h1
        simp only [succList, hv, List.countP_cons, h0]
        simp
      · have h1 : hasBallot (applyVote s r.wallet r.candidate_idx r.bump) w
            = false := by
          rw [hasBallot_applyVote, h]
          simp [hw]
        have hwb : (r.wallet == w) = false := by simp [hw]
        simp only [succList, hv, List.countP_cons, hwb]
        simpa using ih _ h1

theorem pollConfig_eq_iff {p q : Poll} :
    pollConfig p = pollConfig q ↔
      (p.authority = q.authority ∧ p.title = q.title ∧
       p.candidates = q.candidates ∧ p.start_ts = q.start_ts ∧
       p.end_ts = q.end_ts ∧ p.bump = q.bump) := by
  simp [pollConfig, Poll.mk.injEq]

theorem step_config (s : Chain) (r : Req) :
    pollConfig (step s r).poll = pollConfig s.poll ∧
    (step s r).pollKey = s.pollKey ∧
    (step s r).poll.votes.length = s.poll.votes.length := by
  unfold step
  cases hv : vote s r.wallet r.candidate_idx r.now r.bump with
  | error e => exact ⟨rfl, rfl, rfl⟩
  | ok s' =>
    rcases vote_ok_iff.mp hv with ⟨_, _, _, _, hlen, _, rfl⟩
    refine ⟨rfl, rfl, ?_⟩
    simp [applyVote]

theorem run_config (s : Chain) (rs : List Req) :
    pollConfig (run s rs).poll = pollConfig s.poll ∧
    (run s rs).pollKey = s.pollKey ∧
    (run s rs).poll.votes.length = s.poll.votes.length := by
  induction rs generalizing s with
  | nil => exact ⟨rfl, rfl, rfl⟩
  | cons r rest ih =>
    have h1 := step_config s r
    have h2 := ih (step s r)
    exact ⟨h2.1.trans h1.1, h2.2.1.trans h1.2.1, h2.2.2.trans h1.2.2⟩

theorem nameError_at (l : List String) (j : Nat) (hj : j < l.length)
    (hprev : ∀ k, k < j → validName (l.getD k "") = true) :
    ((l.getD j "").isEmpty = true → nameError l = some .EmptyCandidateName) ∧
    ((l.getD j "").isEmpty = false → 32 < (l.getD j "").utf8ByteSize →
      nameError l = some .CandidateNameTooLong) := by
  induction l generalizing j with
  | nil => simp at hj
  | cons name rest ih =>
    cases j with
    | zero =>
      constructor
      · intro he
        simp_all [nameError]
      · intro he hlen
        have h32 : ¬ (name.utf8ByteSize ≤ 32) := by
          simp at he hlen ⊢
          omega
        simp_all [nameError]
    | succ n =>
      have hvalid := hprev 0 (Nat.succ_pos n)
      have hne : name.isEmpty = false ∧ name.utf8ByteSize ≤ 32 := by
        simpa [validName, Bool.and_eq_true] using hvalid
      have ihr := ih n (by simpa using hj)
        (fun k hk => by simpa using hprev (k + 1) (by omega))
      simpa [nameError, hne.1, hne.2] using ihr

theorem getD_replicate_zero (n j : Nat) :
    (List.replicate n (0 : Nat)).getD j 0 = 0 := by
  induction n generalizing j with
  | zero => simp
  | succ m ih =>
    cases j with
    | zero => simp
    | succ jj => simp [ih jj]

theorem sum_replicate_zero (n : Nat) :
    (List.replicate n (0 : Nat)).sum = 0 := by
  induction n with
  | zero => simp
  | succ m ih => simp [ih]

theorem run_ballot_count (s : Chain) (w : Nat) (rs : List Req) :
    (run s rs).ballots.countP (fun v => v.wallet == w) =
      s.ballots.countP (fun v => v.wallet == w) +
        (succList s rs).countP (fun r => r.wallet == w) := by
  induction rs generalizing s with
  | nil => simp [run, succList]
  | cons r rest ih =>
    cases hv : vote s r.wallet r.candidate_idx r.now r.bump with
    | error e =>
      simp only [run, succList, step, hv]
      exact ih s
    | ok s' =>
      rcases vote_ok_iff.mp hv with ⟨_, _, _, _, _, _, rfl⟩
      simp only [run, succList, step, hv, List.countP_cons]
      rw [ih]
      simp [applyVote, List.countP_append, List.countP_cons]
      omega

theorem vote_in_window_not_window_error (s : Chain) (w i : Nat) (t : Int)
    (b : Nat) (hst : s.poll.start_ts ≤ t) (hen : t ≤ s.poll.end_ts) :
    vote s w i t b ≠ .error (.program .TooEarly) ∧
    vote s w i t b ≠ .error (.program .Closed) := by
  unfold vote checked_add
  split_ifs <;> simp_all

/-- Claim C1 (tally conservation): starting from any poll created by a
successful `init_poll`, after any sequence of CastVote requests the sum of
the tallies equals the number of successful `vote` transactions, and each
`votes[i]` equals the number of successful transactions that selected
candidate `i` — no lost or duplicated increments. -/
theorem castVote_tally_conservation (a : Nat) (title : String)
    (cands : List String) (st en : Int) (bp : Nat) (p0 : Poll) (k : Nat)
    (hinit : init_poll a title cands st en bp = .ok p0) (rs : List Req) :
    ((run ⟨k, p0, []⟩ rs).poll.votes.sum = (succList ⟨k, p0, []⟩ rs).length) ∧
    ∀ i, (run ⟨k, p0, []⟩ rs).poll.votes.getD i 0 =
      (succList ⟨k, p0, []⟩ rs).countP (fun r => r.candidate_idx == i) := by
  rcases init_poll_ok_iff.mp hinit with ⟨_, _, _, _, _, rfl⟩
  have h := run_tally
    ⟨k, { authority := a, title := title, candidates := cands,
          votes := List.replicate cands.length 0,
          start_ts := st, end_ts := en, bump := bp }, []⟩ rs
  constructor
  · have h1 := h.1
    simpa [sum_replicate_zero] using h1
  · intro i
    have h2 := h.2 i
    simpa [getD_replicate_zero] using h2

/-- Claim C1 witness. -/
theorem castVote_tally_conservation_witness :
    (run ⟨1, demoPoll, []⟩ [⟨5, 0, 3, 0⟩, ⟨6, 1, 4, 0⟩, ⟨5, 1, 4, 0⟩]).poll.votes.sum =
      (succList ⟨1, demoPoll, []⟩ [⟨5, 0, 3, 0⟩, ⟨6, 1, 4, 0⟩, ⟨5, 1, 4, 0⟩]).length :=
  (castVote_tally_conservation 0 "T" ["A", "B"] 0 10 0 demoPoll 1 (by decide)
    [⟨5, 0, 3, 0⟩, ⟨6, 1, 4, 0⟩, ⟨5, 1, 4, 0⟩]).1

/-- Claim C2 (uniqueness): for a poll and a wallet, at most one `vote`
transaction ever succeeds, and at most one `Voter` record with that wallet
ever exists, because a second allocation at the `(poll, wallet)` address is
rejected; once the wallet holds a ballot, every further attempt fails with
the substrate's allocation error and leaves the state (hence the tallies)
unchanged. -/
theorem castVote_uniqueness (s : Chain) (w : Nat) :
    ((hasBallot s w = false →
       (∀ rs, (succList s rs).countP (fun r => r.wallet == w) ≤ 1) ∧
       (∀ rs, s.ballots = [] →
         ((run s rs).ballots.countP (fun v => v.wallet == w)) ≤ 1)) ∧
     (hasBallot s w = true →
       ∀ i t b, vote s w i t b = .error .accountAlreadyInUse ∧
         step s ⟨w, i, t, b⟩ = s)) := by
  constructor
  · intro h
    constructor
    · intro rs
      exact succList_count_le_one s w rs h
    · intro rs hnil
      rw [run_ballot_count, hnil]
      simpa using succList_count_le_one s w rs h
  · intro h i t b
    have hv := vote_dup s w i t b h
    exact ⟨hv, step_eq_of_error s ⟨w, i, t, b⟩ _ hv⟩

/-- Claim C2 witness. -/
theorem castVote_uniqueness_witness :
    vote dupChain 7 0 150 0 = .error .accountAlreadyInUse ∧
      step dupChain ⟨7, 0, 150, 0⟩ = dupChain :=
  (castVote_uniqueness dupChain 7).2 (by decide) 0 150 0

/-- Claim C3 (overflow atomicity): when the ballot allocation and the window
and index checks all pass but the chosen tally sits at the `u64` maximum,
`vote` fails with `Overflow`, and the failed transaction leaves the whole
state — poll and ballot store — exactly as before the call. -/
theorem castVote_overflow_atomic (s : Chain) (w i : Nat) (t : Int) (b : Nat)
    (hfresh : hasBallot s w = false) (hst : s.poll.start_ts ≤ t)
    (hen : t ≤ s.poll.end_ts) (hidx : i < s.poll.candidates.length)
    (hlen : i < s.poll.votes.length)
    (hmax : U64_MAX ≤ s.poll.votes.getD i 0) :
    vote s w i t b = .error (.program .Overflow) ∧
      step s ⟨w, i, t, b⟩ = s := by
  have hv := vote_overflow s w i t b hfresh hst hen hidx hlen hmax
  exact ⟨hv, step_eq_of_error s ⟨w, i, t, b⟩ _ hv⟩

/-- Claim C3 witness. -/
theorem castVote_overflow_atomic_witness :
    vote maxChain 3 0 5 0 = .error (.program .Overflow) ∧
      step maxChain ⟨3, 0, 5, 0⟩ = maxChain :=
  castVote_overflow_atomic maxChain 3 0 5 0 (by decide) (by decide)
    (by decide) (by decide) (by decide) (by decide)

/-- Claim C4 counterexample: a call at `t = 50` against a poll whose window
starts at `100`, by a wallet that already holds a ballot, does not fail with
`TooEarly` — the duplicate ballot allocation is rejected by the substrate
before the handler's window checks run. -/
theorem castVote_order_counterexample :
    (50 : Int) < dupChain.poll.start_ts ∧
    vote dupChain 7 0 50 0 ≠ .error (.program .TooEarly) ∧
    vote dupChain 7 0 50 0 = .error .accountAlreadyInUse := by
  refine ⟨by decide, by decide, by decide⟩

/-- Claim C4 (amended): for every call whose ballot allocation succeeds —
the wallet holds no ballot for this poll yet — the checks run in order:
`t < start_ts` fails with `TooEarly`; otherwise `t > end_ts` fails with
`Closed`; otherwise `candidate_idx ≥ candidates.length` fails with
`BadCandidate`; the window is inclusive at both bounds, and each of these
failures leaves all state unchanged. -/
theorem castVote_validation_order (s : Chain) (w i : Nat) (t : Int) (b : Nat)
    (hfresh : hasBallot s w = false) :
    ((t < s.poll.start_ts →
       vote s w i t b = .error (.program .TooEarly) ∧
       step s ⟨w, i, t, b⟩ = s) ∧
     (s.poll.start_ts ≤ t → s.poll.end_ts < t →
       vote s w i t b = .error (.program .Closed) ∧
       step s ⟨w, i, t, b⟩ = s) ∧
     (s.poll.start_ts ≤ t → t ≤ s.poll.end_ts →
       s.poll.candidates.length ≤ i →
       vote s w i t b = .error (.program .BadCandidate) ∧
       step s ⟨w, i, t, b⟩ = s) ∧
     (s.poll.start_ts ≤ t → t ≤ s.poll.end_ts →
       vote s w i t b ≠ .error (.program .TooEarly) ∧
       vote s w i t b ≠ .error (.program .Closed))) := by
  refine ⟨?_, ?_, ?_, ?_⟩
  · intro h
    have hv := vote_tooEarly s w i t b hfresh h
    exact ⟨hv, step_eq_of_error s ⟨w, i, t, b⟩ _ hv⟩
  · intro hst h
    have hv := vote_closed s w i t b hfresh hst h
    exact ⟨hv, step_eq_of_error s ⟨w, i, t, b⟩ _ hv⟩
  · intro hst hen h
    have hv := vote_badCandidate s w i t b hfresh hst hen h
    exact ⟨hv, step_eq_of_error s ⟨w, i, t, b⟩ _ hv⟩
  · intro hst hen
    exact vote_in_window_not_window_error s w i t b hst hen

/-- Claim C4 witness. -/
theorem castVote_validation_order_witness :
    vote demoChain 5 0 (-3) 0 = .error (.program .TooEarly) ∧
      step demoChain ⟨5, 0, -3, 0⟩ = demoChain :=
  (castVote_validation_order demoChain 5 0 (-3) 0 (by decide)).1 (by decide)

/-- Claim C5 counterexample: an in-window vote with a valid index by a fresh
wallet does not always succeed — when the chosen tally already holds the
`u64` maximum, it fails with `Overflow`. -/
theorem castVote_in_window_counterexample :
    hasBallot maxChain 3 = false ∧
    maxChain.poll.start_ts ≤ (5 : Int) ∧
    (5 : Int) ≤ maxChain.poll.end_ts ∧
    0 < maxChain.poll.candidates.length ∧
    vote maxChain 3 0 5 0 = .error (.program .Overflow) := by
  refine ⟨by decide, by decide, by decide, by decide, by decide⟩

/-- Claim C5 (amended): for every poll whose tallies are index-aligned with
its candidates, every time inside the inclusive window, every valid
candidate index whose tally is below the `u64` maximum, and every wallet
without a ballot, `vote` succeeds, appending the ballot and incrementing
exactly the chosen tally. -/
theorem castVote_in_window_success (s : Chain) (w i : Nat) (t : Int) (b : Nat)
    (hfresh : hasBallot s w = false) (hst : s.poll.start_ts ≤ t)
    (hen : t ≤ s.poll.end_ts) (hidx : i < s.poll.candidates.length)
    (halign : s.poll.votes.length = s.poll.candidates.length)
    (hmax : s.poll.votes.getD i 0 < U64_MAX) :
    vote s w i t b = .ok (applyVote s w i b) := by
  apply vote_ok_iff.mpr
  exact ⟨hfresh, hst, hen, hidx, by omega, by omega, rfl⟩

/-- Claim C5 witness. -/
theorem castVote_in_window_success_witness :
    vote demoChain 5 0 3 0 = .ok (applyVote demoChain 5 0 0) :=
  castVote_in_window_success demoChain 5 0 3 0 (by decide) (by decide)
    (by decide) (by decide) (by decide) (by decide)

/-- Claim C6 (CreatePoll validation): the checks run in source order with
the first failure winning — fewer than 2 candidates gives
`NotEnoughCandidates`, more than 8 gives `TooManyCandidates`, a title over
64 bytes gives `TitleTooLong`, `start_ts ≥ end_ts` gives `BadSchedule`, and
scanning the names in order, an empty name gives `EmptyCandidateName` and a
name over 32 bytes gives `CandidateNameTooLong`; every failure returns an
error and allocates no poll. -/
theorem createPoll_validation (a : Nat) (title : String)
    (cands : List String) (st en : Int) (bp : Nat) :
    ((cands.length < 2 →
       init_poll a title cands st en bp = .error .NotEnoughCandidates) ∧
     (2 ≤ cands.length → 8 < cands.length →
       init_poll a title cands st en bp = .error .TooManyCandidates) ∧
     (2 ≤ cands.length → cands.length ≤ 8 → 64 < title.utf8ByteSize →
       init_poll a title cands st en bp = .error .TitleTooLong) ∧
     (2 ≤ cands.length → cands.length ≤ 8 → title.utf8ByteSize ≤ 64 →
       en ≤ st → init_poll a title cands st en bp = .error .BadSchedule) ∧
     (2 ≤ cands.length → cands.length ≤ 8 → title.utf8ByteSize ≤ 64 →
       st < en → ∀ j, j < cands.length →
       (∀ k, k < j → validName (cands.getD k "") = true) →
       ((cands.getD j "").isEmpty = true →
         init_poll a title cands st en bp = .error .EmptyCandidateName) ∧
       ((cands.getD j "").isEmpty = false →
         32 < (cands.getD j "").utf8ByteSize →
         init_poll a title cands st en bp =
           .error .CandidateNameTooLong))) := by
  refine ⟨?_, ?_, ?_, ?_, ?_⟩
  · intro h
    have h' : ¬ (2 ≤ cands.length) := by omega
    simp [init_poll, h']
  · intro h1 h2
    have h2' : ¬ (cands.length ≤ 8) := by omega
    simp [init_poll, h1, h2']
  · intro h1 h2 h3
    have h3' : ¬ (title.utf8ByteSize ≤ 64) := by omega
    simp [init_poll, h1, h2, h3']
  · intro h1 h2 h3 h4
    have h4' : ¬ (st < en) := by omega
    simp [init_poll, h1, h2, h3, h4']
  · intro h1 h2 h3 h4 j hj hprev
    have hna := nameError_at cands j hj hprev
    constructor
    · intro he
      have hr := hna.1 he
      simp [init_poll, h1, h2, h3, h4, hr]
    · intro he hsz
      have hr := hna.2 he hsz
      simp [init_poll, h1, h2, h3, h4, hr]

/-- Claim C6 witness. -/
theorem createPoll_validation_witness :
    init_poll 0 "T" ["A"] 0 10 0 = .error .NotEnoughCandidates ∧
    init_poll 0 "T" ["A", "B", "C", "D", "E", "F", "G", "H", "I"] 0 10 0 =
      .error .TooManyCandidates ∧
    init_poll 0 (String.mk (List.replicate 65 'A')) ["A", "B"] 0 10 0 =
      .error .TitleTooLong ∧
    init_poll 0 "T" ["A", "B"] 10 10 0 = .error .BadSchedule ∧
    init_poll 0 "T" ["A", ""] 0 10 0 = .error .EmptyCandidateName ∧
    init_poll 0 "T" ["A", String.mk (List.replicate 33 'B')] 0 10 0 =
      .error .CandidateNameTooLong := by
  refine ⟨(createPoll_validation 0 "T" ["A"] 0 10 0).1 (by decide),
    (createPoll_validation 0 "T" ["A", "B", "C", "D", "E", "F", "G", "H", "I"]
      0 10 0).2.1 (by decide) (by decide),
    (createPoll_validation 0 (String.mk (List.replicate 65 'A')) ["A", "B"]
      0 10 0).2.2.1 (by decide) (by decide) (by decide),
    (createPoll_validation 0 "T" ["A", "B"] 10 10 0).2.2.2.1 (by decide)
      (by decide) (by decide) (by decide),
    ((createPoll_validation 0 "T" ["A", ""] 0 10 0).2.2.2.2 (by decide)
      (by decide) (by decide) (by decide) 1 (by decide) ?hp1).1 (by decide),
    ((createPoll_validation 0 "T" ["A", String.mk (List.replicate 33 'B')]
      0 10 0).2.2.2.2 (by decide) (by decide) (by decide) (by decide) 1
      (by decide) ?hp2).2 (by decide) (by decide)⟩
  case hp1 =>
    intro k hk
    have hk0 : k = 0 := by omega
    subst hk0
    decide
  case hp2 =>
    intro k hk
    have hk0 : k = 0 := by omega
    subst hk0
    decide

/-- Claim C7 (CreatePoll success postcondition): a poll returned by a
successful `init_poll` carries the requesting identity as `authority`, the
given `title`, `candidates`, `start_ts` and `end_ts`, and tallies equal to
a zero sequence of the candidates' length. -/
theorem createPoll_success_state (a : Nat) (title : String)
    (cands : List String) (st en : Int) (bp : Nat) (p : Poll)
    (h : init_poll a title cands st en bp = .ok p) :
    p.authority = a ∧ p.title = title ∧ p.candidates = cands ∧
    p.start_ts = st ∧ p.end_ts = en ∧
    p.votes = List.replicate cands.length 0 ∧
    p.votes.length = p.candidates.length := by
  rcases init_poll_ok_iff.mp h with ⟨_, _, _, _, _, rfl⟩
  refine ⟨rfl, rfl, rfl, rfl, rfl, rfl, ?_⟩
  simp

/-- Claim C7 witness. -/
theorem createPoll_success_state_witness :
    demoPoll.authority = 0 ∧ demoPoll.votes = List.replicate 2 0 :=
  ⟨(createPoll_success_state 0 "T" ["A", "B"] 0 10 0 demoPoll (by decide)).1,
   (createPoll_success_state 0 "T" ["A", "B"] 0 10 0 demoPoll
     (by decide)).2.2.2.2.2.1⟩

/-- Claim C8 (immutability frame): a successful `vote` changes only the
chosen tally, by exactly one; and over any sequence of CastVote calls the
fields `title`, `candidates`, `start_ts`, `end_ts`, `authority` stay
identical to their values before the sequence. -/
theorem castVote_immutability_frame (s : Chain) :
    ((∀ w i t b s', vote s w i t b = .ok s' →
       s'.poll.title = s.poll.title ∧
       s'.poll.candidates = s.poll.candidates ∧
       s'.poll.start_ts = s.poll.start_ts ∧
       s'.poll.end_ts = s.poll.end_ts ∧
       s'.poll.authority = s.poll.authority ∧
       s'.poll.votes.getD i 0 = s.poll.votes.getD i 0 + 1 ∧
       (∀ j, j ≠ i → s'.poll.votes.getD j 0 = s.poll.votes.getD j 0)) ∧
     (∀ rs,
       (run s rs).poll.title = s.poll.title ∧
       (run s rs).poll.candidates = s.poll.candidates ∧
       (run s rs).poll.start_ts = s.poll.start_ts ∧
       (run s rs).poll.end_ts = s.poll.end_ts ∧
       (run s rs).poll.authority = s.poll.authority)) := by
  constructor
  · intro w i t b s' hv
    rcases vote_ok_iff.mp hv with ⟨_, _, _, _, hlen, _, rfl⟩
    exact ⟨rfl, rfl, rfl, rfl, rfl, getD_set_self _ _ _ hlen,
           fun j hj => getD_set_ne _ _ _ _ (Ne.symm hj)⟩
  · intro rs
    rcases pollConfig_eq_iff.mp (run_config s rs).1 with
      ⟨ha, ht, hc, hs, he, -⟩
    exact ⟨ht, hc, hs, he, ha⟩

/-- Claim C8 witness. -/
theorem castVote_immutability_frame_witness :
    demoChainAfter.poll.title = demoChain.poll.title ∧
    demoChainAfter.poll.candidates = demoChain.poll.candidates :=
  ⟨((castVote_immutability_frame demoChain).1 5 0 3 0 demoChainAfter
     (by decide)).1,
   ((castVote_immutability_frame demoChain).1 5 0 3 0 demoChainAfter
     (by decide)).2.1⟩

/-- Claim C9 (length alignment): starting from a poll created by a
successful `init_poll`, after any sequence of CastVote calls,
`len(votes) = len(candidates)`. -/
theorem votes_length_invariant (a : Nat) (title : String)
    (cands : List String) (st en : Int) (bp : Nat) (p0 : Poll) (k : Nat)
    (hinit : init_poll a title cands st en bp = .ok p0) (rs : List Req) :
    (run ⟨k, p0, []⟩ rs).poll.votes.length =
      (run ⟨k, p0, []⟩ rs).poll.candidates.length := by
  rcases init_poll_ok_iff.mp hinit with ⟨_, _, _, _, _, rfl⟩
  have h := run_config
    ⟨k, { authority := a, title := title, candidates := cands,
          votes := List.replicate cands.length 0,
          start_ts := st, end_ts := en, bump := bp }, []⟩ rs
  rcases pollConfig_eq_iff.mp h.1 with ⟨-, -, hcand, -, -, -⟩
  rw [h.2.2, hcand]
  simp

/-- Claim C9 witness. -/
theorem votes_length_invariant_witness :
    (run ⟨1, demoPoll, []⟩ [⟨5, 0, 3, 0⟩]).poll.votes.length =
      (run ⟨1, demoPoll, []⟩ [⟨5, 0, 3, 0⟩]).poll.candidates.length :=
  votes_length_invariant 0 "T" ["A", "B"] 0 10 0 demoPoll 1 (by decide)
    [⟨5, 0, 3, 0⟩]

/-- Claim C10 (length limits are byte counts): `init_poll` measures the
title and candidate-name limits in UTF-8 bytes — any title over 64 bytes
fails with `TitleTooLong` and any non-empty candidate name over 32 bytes
fails with `CandidateNameTooLong`, regardless of character counts. -/
theorem length_limits_count_bytes (a : Nat) (title : String)
    (cands : List String) (st en : Int) (bp : Nat) :
    ((2 ≤ cands.length → cands.length ≤ 8 → 64 < title.utf8ByteSize →
       init_poll a title cands st en bp = .error .TitleTooLong) ∧
     (2 ≤ cands.length → cands.length ≤ 8 → title.utf8ByteSize ≤ 64 →
       st < en → ∀ j, j < cands.length →
       (∀ k, k < j → validName (cands.getD k "") = true) →
       (cands.getD j "").isEmpty = false →
       32 < (cands.getD j "").utf8ByteSize →
       init_poll a title cands st en bp =
         .error .CandidateNameTooLong)) := by
  constructor
  · intro h1 h2 h3
    have h3' : ¬ (title.utf8ByteSize ≤ 64) := by omega
    simp [init_poll, h1, h2, h3']
  · intro h1 h2 h3 h4 j hj hprev he hsz
    have hr := (nameError_at cands j hj hprev).2 he hsz
    simp [init_poll, h1, h2, h3, h4, hr]

/-- Claim C10 witness: 33 two-byte characters make a 33-character title of
66 bytes, rejected as too long; 17 two-byte characters make a 17-character
candidate name of 34 bytes, rejected as too long. -/
theorem length_limits_count_bytes_witness :
    (String.mk (List.replicate 33 'é')).length = 33 ∧
    64 < (String.mk (List.replicate 33 'é')).utf8ByteSize ∧
    init_poll 0 (String.mk (List.replicate 33 'é')) ["A", "B"] 0 10 0 =
      .error .TitleTooLong ∧
    (String.mk (List.replicate 17 'é')).length = 17 ∧
    32 < (String.mk (List.replicate 17 'é')).utf8ByteSize ∧
    init_poll 0 "T" ["A", String.mk (List.replicate 17 'é')] 0 10 0 =
      .error .CandidateNameTooLong := by
  refine ⟨by decide, by decide,
    (length_limits_count_bytes 0 (String.mk (List.replicate 33 'é'))
      ["A", "B"] 0 10 0).1 (by decide) (by decide) (by decide),
    by decide, by decide,
    (length_limits_count_bytes 0 "T" ["A", String.mk (List.replicate 17 'é')]
      0 10 0).2 (by decide) (by decide) (by decide) (by decide) 1 (by decide)
      ?hp (by decide) (by decide)⟩
  case hp =>
    intro k hk
    have hk0 : k = 0 := by omega
    subst hk0
    decide

end Voting
